import Mathlib

/-!
Verification of the livecomment / moderation / report pipeline of
`go/user_handler.go` (an isupipe-style livestreaming backend).

The Go handlers are shallowly embedded as pure Lean functions over an explicit
relational state `Db` (the MySQL tables used by this file).  SQL queries are
translated operation by operation:

* `... LIKE CONCAT('%', w, '%')` becomes `ngWordLikeMatch`, an executable
  implementation of the SQL `LIKE` pattern match (`%` matches any sequence,
  `_` matches one character, `\` escapes the next character).  The comparison
  of individual characters is exact (binary): the table collation is not part
  of the sources, and the specification describes the match as case-sensitive,
  so a case-sensitive collation is modelled.
* `ORDER BY created_at DESC` constrains only the key order; the relative order
  of rows with equal keys is not specified by SQL.  The embedding therefore
  takes the storage scan order of `livecomments` as an explicit `scan`
  parameter (any permutation of the table) and applies a stable sort by
  `created_at` descending, so that every admissible tie order is obtained for
  some scan.
* `crypto/sha256` + `fmt.Sprintf("%x", ·)` become `sha256Hex`, a complete
  executable SHA-256 over byte lists (words are `Nat` reduced mod 2^32).
* `strconv.Atoi` becomes `goAtoi` (optional sign, decimal digits only,
  64-bit signed range).
* each handler runs in one transaction: it returns `Except HErr (result × Db)`
  where the `Db` on success is the committed state; `commitDb` yields the
  state seen after the request (rollback keeps the original state on error).
-/

namespace Isupipe

/-! ### SQL LIKE matching (spam matcher) -/

/-- Executable SQL `LIKE` pattern matching on characters.  `%` matches any
(possibly empty) sequence — realized by trying every suffix via `List.tails` —
`_` matches exactly one character, and `\` makes the following pattern
character match literally.  Character comparison is exact (binary collation;
the schema's collation is outside the sources and the specification calls the
match case-sensitive). -/
def likeMatchList : List Char → List Char → Bool
  | [], s => s.isEmpty
  | c :: p, s =>
    if c = '%' then s.tails.any (fun t => likeMatchList p t)
    else if c = '_' then
      match s with
      | [] => false
      | _ :: s2 => likeMatchList p s2
    else if c = '\\' then
      match p with
      | [] => s == [c]
      | e :: p2 =>
        match s with
        | [] => false
        | d :: s2 => e == d && likeMatchList p2 s2
    else
      match s with
      | [] => false
      | d :: s2 => c == d && likeMatchList p s2

/-- The spam check used by `postLivecommentHandler` and by the purge inside
`moderateHandler`: the SQL expression
`text LIKE CONCAT('%', word, '%')` (hit when the count is `>= 1`). -/
def ngWordLikeMatch (text word : String) : Bool :=
  likeMatchList ('%' :: (word.data ++ ['%'])) text.data

/-- A character that `LIKE` treats literally: not a wildcard (`%`, `_`) and
not the escape character (`\`). -/
def likeLiteralChar (c : Char) : Bool :=
  !(c == '%' || c == '_' || c == '\\')

/-! ### SHA-256 (`crypto/sha256` + `fmt.Sprintf("%x", ·)`) -/

/-- Truncation to a 32-bit word. -/
def w32 (n : Nat) : Nat := n % 4294967296

/-- 32-bit rotate right. -/
def rotr32 (k x : Nat) : Nat := w32 ((x >>> k) ||| (x <<< (32 - k)))

def bsig0 (x : Nat) : Nat := rotr32 2 x ^^^ rotr32 13 x ^^^ rotr32 22 x

def bsig1 (x : Nat) : Nat := rotr32 6 x ^^^ rotr32 11 x ^^^ rotr32 25 x

def ssig0 (x : Nat) : Nat := rotr32 7 x ^^^ rotr32 18 x ^^^ (x >>> 3)

def ssig1 (x : Nat) : Nat := rotr32 17 x ^^^ rotr32 19 x ^^^ (x >>> 10)

def chF (x y z : Nat) : Nat := (x &&& y) ^^^ ((x ^^^ 4294967295) &&& z)

def majF (x y z : Nat) : Nat := (x &&& y) ^^^ (x &&& z) ^^^ (y &&& z)

/-- The 64 SHA-256 round constants. -/
def shaK : List Nat :=
  [1116352408, 1899447441, 3049323471, 3921009573,
   961987163, 1508970993, 2453635748, 2870763221,
   3624381080, 310598401, 607225278, 1426881987,
   1925078388, 2162078206, 2614888103, 3248222580,
   3835390401, 4022224774, 264347078, 604807628,
   770255983, 1249150122, 1555081692, 1996064986,
   2554220882, 2821834349, 2952996808, 3210313671,
   3336571891, 3584528711, 113926993, 338241895,
   666307205, 773529912, 1294757372, 1396182291,
   1695183700, 1986661051, 2177026350, 2456956037,
   2730485921, 2820302411, 3259730800, 3345764771,
   3516065817, 3600352804, 4094571909, 275423344,
   430227734, 506948616, 659060556, 883997877,
   958139571, 1322822218, 1537002063, 1747873779,
   1955562222, 2024104815, 2227730452, 2361852424,
   2428436474, 2756734187, 3204031479, 3329325298]

structure Sha256State where
  a : Nat
  b : Nat
  c : Nat
  d : Nat
  e : Nat
  f : Nat
  g : Nat
  h : Nat
deriving DecidableEq

/-- The SHA-256 initialization vector. -/
def sha256IV : Sha256State :=
  ⟨1779033703, 3144134277, 1013904242, 2773480762, 1359893119, 2600822924, 528734635, 1541459225⟩

/-- Groups a 64-byte block into sixteen 32-bit big-endian words. -/
def blockWords : List Nat → List Nat
  | b0 :: b1 :: b2 :: b3 :: rest =>
    (b0 * 16777216 + b1 * 65536 + b2 * 256 + b3) :: blockWords rest
  | _ => []

/-- Extends the 16-word message schedule by the given number of words. -/
def extendSchedule (ws : List Nat) : Nat → List Nat
  | 0 => ws
  | i + 1 =>
    let n := ws.length
    let nw := w32 (ssig1 (ws.getD (n - 2) 0) + ws.getD (n - 7) 0 +
                   ssig0 (ws.getD (n - 15) 0) + ws.getD (n - 16) 0)
    extendSchedule (ws ++ [nw]) i

/-- One SHA-256 compression round. -/
def shaRound (st : Sha256State) (ki : Nat) (wi : Nat) : Sha256State :=
  let t1 := w32 (st.h + bsig1 st.e + chF st.e st.f st.g + ki + wi)
  let t2 := w32 (bsig0 st.a + majF st.a st.b st.c)
  ⟨w32 (t1 + t2), st.a, st.b, st.c, w32 (st.d + t1), st.e, st.f, st.g⟩

/-- Compression of one 64-byte block into the running state. -/
def compressBlock (st : Sha256State) (block : List Nat) : Sha256State :=
  let ws := extendSchedule (blockWords block) 48
  let fin := (shaK.zip ws).foldl (fun s kw => shaRound s kw.1 kw.2) st
  ⟨w32 (st.a + fin.a), w32 (st.b + fin.b), w32 (st.c + fin.c), w32 (st.d + fin.d),
   w32 (st.e + fin.e), w32 (st.f + fin.f), w32 (st.g + fin.g), w32 (st.h + fin.h)⟩

/-- Big-endian 8-byte encoding of a length in bits. -/
def beBytes8 (n : Nat) : List Nat :=
  [(n >>> 56) % 256, (n >>> 48) % 256, (n >>> 40) % 256, (n >>> 32) % 256,
   (n >>> 24) % 256, (n >>> 16) % 256, (n >>> 8) % 256, n % 256]

/-- SHA-256 padding: `0x80`, zeros to 56 mod 64, then the 64-bit bit length. -/
def sha256pad (msg : List Nat) : List Nat :=
  msg ++ [128] ++ List.replicate ((119 - (msg.length % 64)) % 64) 0 ++ beBytes8 (8 * msg.length)

/-- Splits a padded message into 64-byte blocks.  The fuel (the list length)
bounds the recursion; each step consumes at least one byte. -/
def toBlocksFuel : Nat → List Nat → List (List Nat)
  | 0, _ => []
  | _, [] => []
  | fuel + 1, b :: rest =>
    ((b :: rest).take 64) :: toBlocksFuel fuel ((b :: rest).drop 64)

def toBlocks (l : List Nat) : List (List Nat) := toBlocksFuel l.length l

/-- Big-endian 4-byte encoding of a 32-bit word. -/
def be4Bytes (n : Nat) : List Nat :=
  [(n >>> 24) % 256, (n >>> 16) % 256, (n >>> 8) % 256, n % 256]

/-- The 32-byte SHA-256 digest of a byte list. -/
def sha256Bytes (msg : List Nat) : List Nat :=
  let st := (toBlocks (sha256pad msg)).foldl compressBlock sha256IV
  ([st.a, st.b, st.c, st.d, st.e, st.f, st.g, st.h].map be4Bytes).flatten

def hexDigitChar (n : Nat) : Char := "0123456789abcdef".data.getD n '0'

/-- Lowercase hex of a byte list, two digits per byte (Go `fmt.Sprintf("%x")`
on a byte array). -/
def bytesToHex (bs : List Nat) : String :=
  String.mk ((bs.map (fun b => [hexDigitChar ((b / 16) % 16), hexDigitChar (b % 16)])).flatten)

/-- IconHash computation: hex of the SHA-256 of the avatar bytes used. -/
def sha256Hex (msg : List Nat) : String := bytesToHex (sha256Bytes msg)

/-- Modelled from the spec: the bytes of the fixed fallback avatar image
`../img/NoImage.jpg` (`getFallbackAvatar` of the Avatar Store, which must
always succeed).  The image file itself is not among the sources; it is
modelled as a fixed, non-empty JPEG byte list. -/
def fallbackImageBytes : List Nat :=
  [255, 216, 255, 224, 0, 16, 74, 70, 73, 70, 0, 1, 1, 0, 0, 1, 0, 1, 0, 0, 255, 217]

/-! ### `strconv.Atoi` -/

def digitVal (c : Char) : Option Nat :=
  if '0' ≤ c ∧ c ≤ '9' then some (c.toNat - 48) else none

def parseDigitsAux : List Char → Nat → Option Nat
  | [], acc => some acc
  | c :: cs, acc =>
    match digitVal c with
    | none => none
    | some d => parseDigitsAux cs (acc * 10 + d)

/-- Decimal digit-string parser: at least one digit, digits only. -/
def parseDigits (l : List Char) : Option Nat :=
  match l with
  | [] => none
  | _ => parseDigitsAux l 0

/-- Go `strconv.Atoi`: optional single sign, then decimal digits; errors on an
empty string, a stray character, or 64-bit signed overflow. -/
def goAtoi (s : String) : Option Int :=
  match s.data with
  | '+' :: rest =>
    (parseDigits rest).bind fun n =>
      if n ≤ 9223372036854775807 then some (Int.ofNat n) else none
  | '-' :: rest =>
    (parseDigits rest).bind fun n =>
      if n ≤ 9223372036854775808 then some (-(Int.ofNat n)) else none
  | l =>
    (parseDigits l).bind fun n =>
      if n ≤ 9223372036854775807 then some (Int.ofNat n) else none

/-! ### Data model (table rows, as in the Go `...Model` structs) -/

structure UserModel where
  id : Int
  name : String
  display_name : String
  description : String
  hashed_password : String
deriving DecidableEq

structure ThemeModel where
  id : Int
  user_id : Int
  dark_mode : Bool
deriving DecidableEq

structure IconModel where
  user_id : Int
  image : List Nat
deriving DecidableEq

structure LivestreamModel where
  id : Int
  user_id : Int
  title : String
  description : String
  playlist_url : String
  thumbnail_url : String
  start_at : Int
  end_at : Int
deriving DecidableEq

structure LivecommentModel where
  id : Int
  user_id : Int
  livestream_id : Int
  comment : String
  tip : Int
  created_at : Int
deriving DecidableEq

structure NGWord where
  id : Int
  user_id : Int
  livestream_id : Int
  word : String
  created_at : Int
deriving DecidableEq

structure LivecommentReportModel where
  id : Int
  user_id : Int
  livestream_id : Int
  livecomment_id : Int
  created_at : Int
deriving DecidableEq

/-- The relational store: one list per table (in storage order), plus the
auto-increment counters of the three tables this file inserts into. -/
structure Db where
  users : List UserModel
  themes : List ThemeModel
  icons : List IconModel
  livestreams : List LivestreamModel
  livecomments : List LivecommentModel
  ng_words : List NGWord
  livecomment_reports : List LivecommentReportModel
  nextLivecommentId : Int
  nextNgWordId : Int
  nextReportId : Int
deriving DecidableEq

/-! ### Response shapes (client-facing structs) -/

structure Theme where
  id : Int
  dark_mode : Bool
deriving DecidableEq

structure User where
  id : Int
  name : String
  display_name : String
  description : String
  theme : Theme
  icon_hash : String
deriving DecidableEq

structure Livestream where
  id : Int
  owner : User
  title : String
  description : String
  playlist_url : String
  thumbnail_url : String
  start_at : Int
  end_at : Int
deriving DecidableEq

structure Livecomment where
  id : Int
  user : User
  livestream : Livestream
  comment : String
  tip : Int
  created_at : Int
deriving DecidableEq

structure LivecommentReport where
  id : Int
  reporter : User
  livecomment : Livecomment
  created_at : Int
deriving DecidableEq

/-- HTTP-level failures, mirroring the `echo.NewHTTPError` statuses used by
the handlers (messages are the Go message prefixes, without the appended
driver error text). -/
inductive HErr where
  | badRequest (msg : String)
  | unauthorized (msg : String)
  | forbidden (msg : String)
  | notFound (msg : String)
  | internalServerError (msg : String)
deriving DecidableEq

/-- Outcome of a single-row `sqlx` fetch: no row at all, or a row whose
`LEFT JOIN`ed columns are `NULL` and fail to scan into non-nullable fields. -/
inductive FetchErr where
  | noRows
  | scanErr
deriving DecidableEq

/-- The committed state after a request: the transaction's state on success,
the original state on error (`defer tx.Rollback()`). -/
def commitDb {α : Type} (db : Db) : Except HErr (α × Db) → Db
  | .ok (_, db2) => db2
  | .error _ => db

structure PostLivecommentRequest where
  comment : String
  tip : Int
deriving DecidableEq

structure ModerateRequest where
  ng_word : String
deriving DecidableEq

/-- The joined row produced by the query in `getLivecommentData`.  The query
also selects `tags.id`/`tags.name`, which are bound to no struct field in the
Go code and are dropped here. -/
structure LivecommentResponse where
  livecomment_id : Int
  lc_user_id : Int
  comment : String
  tip : Int
  created_at : Int
  user_id : Int
  username : String
  display_name : String
  user_description : String
  theme_id : Int
  dark_mode : Bool
  user_image : List Nat
  livestream_id : Int
  livestream_title : String
  livestream_description : String
  playlist_url : String
  thumbnail_url : String
  start_at : Int
  end_at : Int
deriving DecidableEq

/-- The single-comment joined lookup.  A missing comment row is `noRows`
(`sql.ErrNoRows`); a missing `LEFT JOIN` partner row makes the non-nullable
user/theme/livestream columns `NULL` and the row fails to scan (`scanErr`).
`COALESCE(i.image, '')` makes the icon column empty rather than `NULL`. -/
def getLivecommentData (db : Db) (livecommentID : Int) :
    Except FetchErr LivecommentResponse :=
  match db.livecomments.find? (fun lc => lc.id == livecommentID) with
  | none => .error .noRows
  | some lc =>
    match db.users.find? (fun u => u.id == lc.user_id) with
    | none => .error .scanErr
    | some u =>
      match db.themes.find? (fun t => t.user_id == u.id) with
      | none => .error .scanErr
      | some t =>
        match db.livestreams.find? (fun ls => ls.id == lc.livestream_id) with
        | none => .error .scanErr
        | some ls =>
          let image := ((db.icons.find? (fun i => i.user_id == u.id)).map IconModel.image).getD []
          .ok { livecomment_id := lc.id, lc_user_id := lc.user_id, comment := lc.comment,
                tip := lc.tip, created_at := lc.created_at,
                user_id := u.id, username := u.name, display_name := u.display_name,
                user_description := u.description, theme_id := t.id, dark_mode := t.dark_mode,
                user_image := image,
                livestream_id := ls.id, livestream_title := ls.title,
                livestream_description := ls.description, playlist_url := ls.playlist_url,
                thumbnail_url := ls.thumbnail_url, start_at := ls.start_at, end_at := ls.end_at }

/-- Pure response assembly for one comment: an absent or empty avatar column
is replaced by the fallback image's bytes before hashing. -/
def fillLivecommentResponse (resp : LivecommentResponse) : Livecomment :=
  let image := if resp.user_image.isEmpty then fallbackImageBytes else resp.user_image
  let commentOwner : User :=
    { id := resp.user_id, name := resp.username, display_name := resp.display_name,
      description := resp.user_description, theme := ⟨resp.theme_id, resp.dark_mode⟩,
      icon_hash := sha256Hex image }
  let livestream : Livestream :=
    { id := resp.livestream_id, owner := commentOwner, title := resp.livestream_title,
      description := resp.livestream_description, playlist_url := resp.playlist_url,
      thumbnail_url := resp.thumbnail_url, start_at := resp.start_at, end_at := resp.end_at }
  { id := resp.livecomment_id, user := commentOwner, livestream := livestream,
    comment := resp.comment, tip := resp.tip, created_at := resp.created_at }

/-- Fetch-and-fill of one comment, with the error mapping the handlers apply
to `getLivecommentData` failures. -/
def fillLivecommentFromDb (db : Db) (livecommentID : Int) : Except HErr Livecomment :=
  match getLivecommentData db livecommentID with
  | .error .noRows => .error (.notFound "not found livecomment with the specified ID")
  | .error .scanErr => .error (.internalServerError "failed to get livecomment")
  | .ok resp => .ok (fillLivecommentResponse resp)

/-- `fillUserResponse`: theme lookup, then the icon row; only an *absent* icon
row (`sql.ErrNoRows`) falls back to the fallback image — a present row with
empty bytes is hashed as-is. -/
def fillUserResponse (db : Db) (userModel : UserModel) : Except FetchErr User :=
  match db.themes.find? (fun t => t.user_id == userModel.id) with
  | none => .error .noRows
  | some themeModel =>
    let image :=
      match db.icons.find? (fun i => i.user_id == userModel.id) with
      | none => fallbackImageBytes
      | some icon => icon.image
    .ok { id := userModel.id, name := userModel.name, display_name := userModel.display_name,
          description := userModel.description,
          theme := ⟨themeModel.id, themeModel.dark_mode⟩,
          icon_hash := sha256Hex image }

/-! ### Listing comments (`getLivecommentsHandler`) -/

/-- The sort key of `ORDER BY created_at DESC`: a row sorts before another
when its `created_at` is at least as large. -/
def byRecency (a b : LivecommentModel) : Prop := b.created_at ≤ a.created_at

instance : DecidableRel byRecency := fun a b =>
  inferInstanceAs (Decidable (b.created_at ≤ a.created_at))

instance : IsTotal LivecommentModel byRecency :=
  ⟨fun a b => le_total b.created_at a.created_at⟩

instance : IsTrans LivecommentModel byRecency :=
  ⟨fun _ _ _ hab hbc => le_trans hbc hab⟩

/-- The row set of `SELECT * FROM livecomments WHERE livestream_id = ?
ORDER BY created_at DESC`, evaluated on a storage scan order `scan` of the
table: rows of the stream, stably sorted by `created_at` descending.  SQL
fixes only the key order, so the tie order follows the (arbitrary) scan. -/
def livecommentsQueryRows (scan : List LivecommentModel) (livestreamID : Int) :
    List LivecommentModel :=
  List.insertionSort byRecency (scan.filter (fun lc => lc.livestream_id == livestreamID))

/-- Response assembly loop of `getLivecommentsHandler`: each row is re-fetched
with its joined context and filled; the first failure aborts the request. -/
def listLivecommentsWith (db : Db) (rows : List LivecommentModel) :
    Except HErr (List Livecomment) :=
  rows.mapM (fun lc => fillLivecommentFromDb db lc.id)

/-- `getLivecommentsHandler`: parses the optional `limit` query parameter with
`strconv.Atoi` (parse failure is a 400); the parsed value is spliced into the
SQL text, so a negative value produces an invalid `LIMIT` clause and the query
itself fails (a 500). -/
def getLivecommentsHandler (db : Db) (scan : List LivecommentModel) (livestreamID : Int)
    (limitParam : Option String) : Except HErr (List Livecomment) :=
  match limitParam with
  | none => listLivecommentsWith db (livecommentsQueryRows scan livestreamID)
  | some s =>
    match goAtoi s with
    | none => .error (.badRequest "limit query parameter must be integer")
    | some n =>
      if n < 0 then .error (.internalServerError "failed to get livecomments")
      else listLivecommentsWith db ((livecommentsQueryRows scan livestreamID).take n.toNat)

/-! ### Submitting a comment (`postLivecommentHandler`) -/

/-- The banned-phrase rows the submission-time spam check loads:
`SELECT ... FROM ng_words WHERE user_id = ? AND livestream_id = ?` with the
stream's *owner* id and the stream id. -/
def submissionNgWords (db : Db) (ls : LivestreamModel) : List NGWord :=
  db.ng_words.filter (fun w => w.user_id == ls.user_id && w.livestream_id == ls.id)

/-- `postLivecommentHandler`: resolve the stream, run the spam check against
`submissionNgWords` (the loop returns a 400 on the first hit), insert the
comment with the server timestamp, and re-fetch it for the response. -/
def postLivecommentHandler (db : Db) (livestreamID : Int) (userID : Int)
    (req : PostLivecommentRequest) (now : Int) : Except HErr (Livecomment × Db) :=
  match db.livestreams.find? (fun ls => ls.id == livestreamID) with
  | none => .error (.notFound "livestream not found")
  | some livestreamModel =>
    if (submissionNgWords db livestreamModel).any
        (fun w => ngWordLikeMatch req.comment w.word) then
      .error (.badRequest "このコメントがスパム判定されました")
    else
      let lc : LivecommentModel :=
        { id := db.nextLivecommentId, user_id := userID, livestream_id := livestreamID,
          comment := req.comment, tip := req.tip, created_at := now }
      let db2 : Db :=
        { db with livecomments := db.livecomments ++ [lc],
                  nextLivecommentId := db.nextLivecommentId + 1 }
      (fillLivecommentFromDb db2 lc.id).map (fun out => (out, db2))

/-! ### Registering an NG word (`moderateHandler`) -/

/-- The purge loop of `moderateHandler`: for each banned phrase (in table
order), the current comment table is re-listed system-wide and a `DELETE`
scoped to the target stream removes every comment whose body `LIKE`-matches
the phrase.  Rows are identified by their primary key `id`. -/
def purgeNgComments (livestreamID : Int) (ngwords : List NGWord)
    (comments : List LivecommentModel) : List LivecommentModel :=
  match ngwords with
  | [] => comments
  | w :: ws =>
    purgeNgComments livestreamID ws
      (comments.filter (fun lc =>
        !(lc.livestream_id == livestreamID && ngWordLikeMatch lc.comment w.word)))

/-- `moderateHandler`: verify the caller owns the stream (else a 400 with
the fixed message), insert the NG word, re-load *all* NG words of the stream
(any registering user), purge matching comments, and answer with only the new
word's id. -/
def moderateHandler (db : Db) (livestreamID : Int) (userID : Int)
    (req : ModerateRequest) (now : Int) : Except HErr (Int × Db) :=
  let ownedLivestreams :=
    db.livestreams.filter (fun ls => ls.id == livestreamID && ls.user_id == userID)
  if ownedLivestreams.isEmpty then
    .error (.badRequest "A streamer can't moderate livestreams that other streamers own")
  else
    let w : NGWord :=
      { id := db.nextNgWordId, user_id := userID, livestream_id := livestreamID,
        word := req.ng_word, created_at := now }
    let db1 : Db :=
      { db with ng_words := db.ng_words ++ [w], nextNgWordId := db.nextNgWordId + 1 }
    let ngwords := db1.ng_words.filter (fun x => x.livestream_id == livestreamID)
    let db2 : Db := { db1 with livecomments := purgeNgComments livestreamID ngwords db1.livecomments }
    .ok (w.id, db2)

/-- The NG-word row `moderateHandler` inserts. -/
def newNgWord (db : Db) (livestreamID userID : Int) (req : ModerateRequest) (now : Int) :
    NGWord :=
  { id := db.nextNgWordId, user_id := userID, livestream_id := livestreamID,
    word := req.ng_word, created_at := now }

/-- The report row `reportLivecommentHandler` inserts. -/
def newReport (db : Db) (livestreamID livecommentID userID now : Int) :
    LivecommentReportModel :=
  { id := db.nextReportId, user_id := userID, livestream_id := livestreamID,
    livecomment_id := livecommentID, created_at := now }

/-! ### Filing a report (`reportLivecommentHandler`) -/

/-- The joined row produced by the query in `getLivecommentReportData`. -/
structure LivecommentReportResponse where
  report_id : Int
  reporter_user_id : Int
  report_created_at : Int
  reporter_id : Int
  reporter_name : String
  reporter_display_name : String
  reporter_description : String
  reporter_theme_id : Int
  reporter_dark_mode : Bool
  reporter_image : List Nat
  livecomment_id : Int
  lc_user_id : Int
  comment : String
  tip : Int
  livecomment_created_at : Int
  lc_username : String
  lc_display_name : String
  lc_user_description : String
  lc_user_theme_id : Int
  lc_user_dark_mode : Bool
  lc_user_image : List Nat
  livestream_id : Int
  livestream_title : String
  livestream_description : String
  playlist_url : String
  thumbnail_url : String
  start_at : Int
  end_at : Int
deriving DecidableEq

/-- The single-report joined lookup (reporter and comment-author users,
themes and optional icons, and the comment's livestream). -/
def getLivecommentReportData (db : Db) (reportID : Int) :
    Except FetchErr LivecommentReportResponse :=
  match db.livecomment_reports.find? (fun r => r.id == reportID) with
  | none => .error .noRows
  | some lr =>
    match db.users.find? (fun u => u.id == lr.user_id) with
    | none => .error .scanErr
    | some ru =>
      match db.themes.find? (fun t => t.user_id == ru.id) with
      | none => .error .scanErr
      | some rt =>
        match db.livecomments.find? (fun lc => lc.id == lr.livecomment_id) with
        | none => .error .scanErr
        | some lc =>
          match db.users.find? (fun u => u.id == lc.user_id) with
          | none => .error .scanErr
          | some lu =>
            match db.themes.find? (fun t => t.user_id == lu.id) with
            | none => .error .scanErr
            | some lt =>
              match db.livestreams.find? (fun ls => ls.id == lc.livestream_id) with
              | none => .error .scanErr
              | some ls =>
                let ri := ((db.icons.find? (fun i => i.user_id == ru.id)).map IconModel.image).getD []
                let li := ((db.icons.find? (fun i => i.user_id == lu.id)).map IconModel.image).getD []
                .ok { report_id := lr.id, reporter_user_id := lr.user_id,
                      report_created_at := lr.created_at,
                      reporter_id := ru.id, reporter_name := ru.name,
                      reporter_display_name := ru.display_name,
                      reporter_description := ru.description,
                      reporter_theme_id := rt.id, reporter_dark_mode := rt.dark_mode,
                      reporter_image := ri,
                      livecomment_id := lc.id, lc_user_id := lc.user_id,
                      comment := lc.comment, tip := lc.tip,
                      livecomment_created_at := lc.created_at,
                      lc_username := lu.name, lc_display_name := lu.display_name,
                      lc_user_description := lu.description,
                      lc_user_theme_id := lt.id, lc_user_dark_mode := lt.dark_mode,
                      lc_user_image := li,
                      livestream_id := ls.id, livestream_title := ls.title,
                      livestream_description := ls.description,
                      playlist_url := ls.playlist_url, thumbnail_url := ls.thumbnail_url,
                      start_at := ls.start_at, end_at := ls.end_at }

/-- Pure response assembly for one report: reporter and comment-author
profiles are resolved independently, each substituting the fallback image for
an absent-or-empty avatar before hashing. -/
def fillLivecommentReportResponse (resp : LivecommentReportResponse) : LivecommentReport :=
  let reporterImage :=
    if resp.reporter_image.isEmpty then fallbackImageBytes else resp.reporter_image
  let reporter : User :=
    { id := resp.reporter_id, name := resp.reporter_name,
      display_name := resp.reporter_display_name, description := resp.reporter_description,
      theme := ⟨resp.reporter_theme_id, resp.reporter_dark_mode⟩,
      icon_hash := sha256Hex reporterImage }
  let lcUserImage :=
    if resp.lc_user_image.isEmpty then fallbackImageBytes else resp.lc_user_image
  let commentOwner : User :=
    { id := resp.lc_user_id, name := resp.lc_username,
      display_name := resp.lc_display_name, description := resp.lc_user_description,
      theme := ⟨resp.lc_user_theme_id, resp.lc_user_dark_mode⟩,
      icon_hash := sha256Hex lcUserImage }
  let livestream : Livestream :=
    { id := resp.livestream_id, owner := commentOwner, title := resp.livestream_title,
      description := resp.livestream_description, playlist_url := resp.playlist_url,
      thumbnail_url := resp.thumbnail_url, start_at := resp.start_at, end_at := resp.end_at }
  let livecomment : Livecomment :=
    { id := resp.livecomment_id, user := commentOwner, livestream := livestream,
      comment := resp.comment, tip := resp.tip, created_at := resp.livecomment_created_at }
  { id := resp.report_id, reporter := reporter, livecomment := livecomment,
    created_at := resp.report_created_at }

/-- `reportLivecommentHandler`: the target stream and comment must exist (404
otherwise, before any insert); the report row stores the *request's* stream id
and comment id, with no check that the comment belongs to that stream; the
inserted report is then re-fetched with its joined context for the response. -/
def reportLivecommentHandler (db : Db) (livestreamID : Int) (livecommentID : Int)
    (userID : Int) (now : Int) : Except HErr (LivecommentReport × Db) :=
  match db.livestreams.find? (fun ls => ls.id == livestreamID) with
  | none => .error (.notFound "livestream not found")
  | some _ =>
    match db.livecomments.find? (fun lc => lc.id == livecommentID) with
    | none => .error (.notFound "livecomment not found")
    | some _ =>
      let reportModel : LivecommentReportModel :=
        { id := db.nextReportId, user_id := userID, livestream_id := livestreamID,
          livecomment_id := livecommentID, created_at := now }
      let db2 : Db :=
        { db with livecomment_reports := db.livecomment_reports ++ [reportModel],
                  nextReportId := db.nextReportId + 1 }
      match getLivecommentReportData db2 reportModel.id with
      | .error .noRows => .error (.notFound "not found livecomment report with the specified ID")
      | .error .scanErr => .error (.internalServerError "failed to get livecomment report")
      | .ok resp => .ok (fillLivecommentReportResponse resp, db2)


/-! ### Concrete states used by the scenarios below -/

def sampleUser (uid : Int) (uname : String) : UserModel :=
  { id := uid, name := uname, display_name := uname, description := "",
    hashed_password := "" }

def sampleTheme (tid uid : Int) : ThemeModel :=
  { id := tid, user_id := uid, dark_mode := false }

def sampleStream (sid uid : Int) : LivestreamModel :=
  { id := sid, user_id := uid, title := "t", description := "d", playlist_url := "p",
    thumbnail_url := "n", start_at := 0, end_at := 0 }

def emptyDb : Db :=
  { users := [], themes := [], icons := [], livestreams := [], livecomments := [],
    ng_words := [], livecomment_reports := [],
    nextLivecommentId := 1, nextNgWordId := 1, nextReportId := 1 }

/-- The spec's moderation scenario: one stream owned by user 1 with the three
comments of §8, no NG words yet. -/
def dbBanana : Db :=
  { emptyDb with
    users := [sampleUser 1 "u"],
    themes := [sampleTheme 1 1],
    livestreams := [sampleStream 1 1],
    livecomments :=
      [{ id := 1, user_id := 1, livestream_id := 1, comment := "hello world",
         tip := 0, created_at := 100 },
       { id := 2, user_id := 1, livestream_id := 1, comment := "free banana today",
         tip := 0, created_at := 101 },
       { id := 3, user_id := 1, livestream_id := 1, comment := "bananas are great",
         tip := 0, created_at := 102 }],
    nextLivecommentId := 4 }

/-- A stream with a single comment whose body avoids the phrase below except
under wildcard interpretation. -/
def dbWildcardPurge : Db :=
  { emptyDb with
    users := [sampleUser 1 "u"],
    themes := [sampleTheme 1 1],
    livestreams := [sampleStream 1 1],
    livecomments :=
      [{ id := 1, user_id := 1, livestream_id := 1, comment := "axb",
         tip := 0, created_at := 100 }],
    nextLivecommentId := 2 }

/-- A state whose only stream (id 1) is owned by user 2. -/
def dbOtherOwner : Db :=
  { emptyDb with livestreams := [sampleStream 1 2] }

/-- Two comments of the same stream with identical `created_at`, ids 1 and 2. -/
def tieCommentA : LivecommentModel :=
  { id := 1, user_id := 1, livestream_id := 1, comment := "a", tip := 0, created_at := 100 }

def tieCommentB : LivecommentModel :=
  { id := 2, user_id := 1, livestream_id := 1, comment := "b", tip := 0, created_at := 100 }

/-- A stream whose two comments share one creation timestamp. -/
def dbTies : Db :=
  { emptyDb with
    users := [sampleUser 1 "u"],
    themes := [sampleTheme 1 1],
    livestreams := [sampleStream 1 1],
    livecomments := [tieCommentA, tieCommentB],
    nextLivecommentId := 3 }

/-- Stream 1 is owned by user 1, but its only NG-word row was registered under
user id 2. -/
def dbForeignNgWord : Db :=
  { emptyDb with
    users := [sampleUser 3 "p"],
    themes := [sampleTheme 1 3],
    livestreams := [sampleStream 1 1],
    ng_words := [{ id := 1, user_id := 2, livestream_id := 1, word := "x", created_at := 0 }] }

/-- Stream 1 owned by user 1, with an NG-word row registered by the owner. -/
def dbOwnerNgWord : Db :=
  { emptyDb with
    livestreams := [sampleStream 1 1],
    ng_words := [{ id := 1, user_id := 1, livestream_id := 1, word := "x", created_at := 0 }] }

/-- Two streams; the only comment (id 5) belongs to stream 2, not stream 1. -/
def dbCrossReport : Db :=
  { emptyDb with
    users := [sampleUser 7 "rep", sampleUser 2 "auth"],
    themes := [sampleTheme 1 7, sampleTheme 2 2],
    livestreams := [sampleStream 1 9, sampleStream 2 2],
    livecomments :=
      [{ id := 5, user_id := 2, livestream_id := 2, comment := "c", tip := 0, created_at := 10 }] }

/-- A user whose `icons` row exists but stores zero bytes. -/
def dbEmptyIcon : Db :=
  { emptyDb with
    users := [sampleUser 1 "alice"],
    themes := [sampleTheme 1 1],
    icons := [{ user_id := 1, image := [] }],
    livestreams := [sampleStream 1 1],
    livecomments :=
      [{ id := 1, user_id := 1, livestream_id := 1, comment := "hi", tip := 0, created_at := 100 }],
    nextLivecommentId := 2 }

/-! ### Lemmas about the LIKE matcher -/

theorem likeMatchList_percent_iff (p : List Char) (s : List Char) :
    likeMatchList ('%' :: p) s = true ↔ ∃ t, t <:+ s ∧ likeMatchList p t = true := by
  have hstep : likeMatchList ('%' :: p) s = s.tails.any (fun t => likeMatchList p t) := by
    rw [likeMatchList.eq_def]
    simp only [reduceIte]
  rw [hstep, List.any_eq_true]
  constructor
  · rintro ⟨t, ht, hp⟩
    exact ⟨t, (List.mem_tails t s).mp ht, hp⟩
  · rintro ⟨t, ht, hp⟩
    exact ⟨t, (List.mem_tails t s).mpr ht, hp⟩

theorem likeLiteralChar_spec {c : Char} (h : likeLiteralChar c = true) :
    c ≠ '%' ∧ c ≠ '_' ∧ c ≠ '\\' := by
  have h2 := h
  simp only [likeLiteralChar, Bool.not_eq_eq_eq_not, Bool.not_true, Bool.or_eq_false_iff,
    beq_eq_false_iff_ne, ne_eq] at h2
  exact ⟨h2.1.1, h2.1.2, h2.2⟩

theorem likeMatchList_literal_percent (w : List Char) :
    w.all likeLiteralChar = true →
      ∀ s : List Char, (likeMatchList (w ++ ['%']) s = true ↔ w <+: s) := by
  induction w with
  | nil =>
    intro _ s
    have hl : likeMatchList ['%'] s = true := by
      rw [likeMatchList_percent_iff]
      exact ⟨[], ⟨s, List.append_nil s⟩, rfl⟩
    simp [hl, List.nil_prefix]
  | cons a w ih =>
    intro hw s
    rw [List.all_cons, Bool.and_eq_true] at hw
    obtain ⟨ha, hw⟩ := hw
    obtain ⟨h1, h2, h3⟩ := likeLiteralChar_spec ha
    cases s with
    | nil =>
      rw [List.cons_append]
      have hstep : likeMatchList (a :: (w ++ ['%'])) [] = false := by
        rw [likeMatchList.eq_def]
        simp only [if_neg h1, if_neg h2, if_neg h3]
      simp [hstep, List.prefix_nil]
    | cons d s2 =>
      rw [List.cons_append]
      have hstep : likeMatchList (a :: (w ++ ['%'])) (d :: s2)
          = (a == d && likeMatchList (w ++ ['%']) s2) := by
        rw [likeMatchList.eq_def]
        simp only [if_neg h1, if_neg h2, if_neg h3]
      rw [hstep, Bool.and_eq_true, beq_iff_eq, ih hw s2, List.cons_prefix_cons]

theorem ngWordLikeMatch_literal (body word : String)
    (hw : word.data.all likeLiteralChar = true) :
    ngWordLikeMatch body word = true ↔ word.data <:+: body.data := by
  rw [ngWordLikeMatch, likeMatchList_percent_iff, List.infix_iff_prefix_suffix]
  constructor
  · rintro ⟨t, hts, hmt⟩
    exact ⟨t, (likeMatchList_literal_percent word.data hw t).mp hmt, hts⟩
  · rintro ⟨t, htp, hts⟩
    exact ⟨t, hts, (likeMatchList_literal_percent word.data hw t).mpr htp⟩

/-! ### Lemmas about the moderation purge -/

theorem purgeNgComments_eq_filter (livestreamID : Int) :
    ∀ (ngwords : List NGWord) (comments : List LivecommentModel),
      purgeNgComments livestreamID ngwords comments =
        comments.filter (fun lc =>
          !(lc.livestream_id == livestreamID &&
            ngwords.any (fun w => ngWordLikeMatch lc.comment w.word))) := by
  intro ngwords
  induction ngwords with
  | nil =>
    intro comments
    simp [purgeNgComments]
  | cons w ws ih =>
    intro comments
    rw [purgeNgComments, ih, List.filter_filter]
    apply List.filter_congr
    intro lc _
    cases h1 : (lc.livestream_id == livestreamID) <;>
      cases h2 : ngWordLikeMatch lc.comment w.word <;>
        simp [h1, h2]

theorem moderateHandler_ok (db : Db) (livestreamID userID : Int)
    (req : ModerateRequest) (now : Int)
    (h : (db.livestreams.filter
        (fun ls => ls.id == livestreamID && ls.user_id == userID)).isEmpty = false) :
    moderateHandler db livestreamID userID req now =
      .ok (db.nextNgWordId, { db with
        ng_words := db.ng_words ++ [newNgWord db livestreamID userID req now],
        nextNgWordId := db.nextNgWordId + 1,
        livecomments := db.livecomments.filter (fun lc =>
          !(lc.livestream_id == livestreamID &&
            ((db.ng_words ++ [newNgWord db livestreamID userID req now]).filter
                (fun x => x.livestream_id == livestreamID)).any
              (fun w => ngWordLikeMatch lc.comment w.word))) }) := by
  simp only [moderateHandler, h, Bool.false_eq_true, if_false, newNgWord]
  rw [purgeNgComments_eq_filter]


/-! ### C1: the spam match is LIKE containment, not literal substring -/

/-- C1: counterexample.  The spam match used at submission and purge time is
SQL `LIKE` with the registered phrase spliced into the `%...%` pattern, not
literal substring containment: the phrase `"b%d"` matches the body `"abcd"`
although it is not a substring of it (`%` acts as a wildcard), and the empty
phrase matches every body although the claim requires a *non-empty* substring
match.  So the claimed "true iff the phrase is a non-empty literal substring,
with no wildcard interpretation" is false. -/
theorem spamMatch_wildcard_counterexample :
    ngWordLikeMatch "abcd" "b%d" = true
    ∧ ¬ ("b%d".data <:+: "abcd".data)
    ∧ ngWordLikeMatch "abcd" "" = true :=
  ⟨by decide, by decide, by decide⟩

/-- C1 (amended): the spam match is SQL `LIKE` containment of the phrase in
the body.  For a phrase free of the LIKE metacharacters `%`, `_` and `\` the
match holds exactly when the phrase is a literal, case-sensitively compared
(spec-modelled binary collation) substring of the body — in particular a body
differing from such a phrase only in letter case, or splitting it with other
characters, is not matched; but `%` and `_` inside a phrase act as wildcards
and the empty phrase matches every body. -/
theorem spamMatch_like_semantics :
    (∀ body phrase : String, phrase.data.all likeLiteralChar = true →
        (ngWordLikeMatch body phrase = true ↔ phrase.data <:+: body.data))
    ∧ ngWordLikeMatch "aXb" "a%b" = true
    ∧ ngWordLikeMatch "aXb" "a_b" = true
    ∧ ngWordLikeMatch "aXYb" "a_b" = false
    ∧ ngWordLikeMatch "Banana" "banana" = false :=
  ⟨fun body phrase h => ngWordLikeMatch_literal body phrase h,
   by decide, by decide, by decide, by decide⟩

/-- Witness for C1 (amended) at a concrete body and phrase. -/
theorem spamMatch_like_semantics_witness :
    ngWordLikeMatch "free banana today" "banana" = true :=
  (spamMatch_like_semantics.1 "free banana today" "banana" (by decide)).mpr (by decide)

/-! ### C2: what a successful registration purges, and what it returns -/

/-- C2: counterexample.  After the owner registers the phrase `"a%b"`, the
stream's comment `"axb"` is deleted although its body does not contain the
phrase as a substring (the purge interprets `%` as a LIKE wildcard), so the
claimed "every comment whose body does not contain the phrase is still
present" is false at this input; the response also carries no purgedCount. -/
theorem moderate_purge_wildcard_counterexample :
    (moderateHandler dbWildcardPurge 1 1 ⟨"a%b"⟩ 200).map (fun r => r.2.livecomments) =
      .ok []
    ∧ ¬ ("a%b".data <:+: "axb".data) :=
  ⟨rfl, by decide⟩

/-- C2 (amended): a successful owner registration appends the phrase row, and
the committed comment table keeps exactly those comments that are outside the
target stream or LIKE-match no phrase of the stream's updated banned set;
the response carries only the new word's id — no purgedCount field exists.
In the spec's banana scenario ("hello world" / "free banana today" /
"bananas are great", phrase "banana") comments 2 and 3 are deleted, comment 1
survives, and the number of deleted comments is 2. -/
theorem moderate_purge_characterization :
    (∀ (db : Db) (livestreamID userID : Int) (req : ModerateRequest) (now : Int),
      (db.livestreams.filter
          (fun ls => ls.id == livestreamID && ls.user_id == userID)).isEmpty = false →
      moderateHandler db livestreamID userID req now =
        .ok (db.nextNgWordId, { db with
          ng_words := db.ng_words ++ [newNgWord db livestreamID userID req now],
          nextNgWordId := db.nextNgWordId + 1,
          livecomments := db.livecomments.filter (fun lc =>
            !(lc.livestream_id == livestreamID &&
              ((db.ng_words ++ [newNgWord db livestreamID userID req now]).filter
                  (fun x => x.livestream_id == livestreamID)).any
                (fun w => ngWordLikeMatch lc.comment w.word))) }))
    ∧ (moderateHandler dbBanana 1 1 ⟨"banana"⟩ 200).map
        (fun r => (r.1, r.2.livecomments.map LivecommentModel.id)) = .ok (1, [1])
    ∧ (moderateHandler dbBanana 1 1 ⟨"banana"⟩ 200).map
        (fun r => dbBanana.livecomments.length - r.2.livecomments.length) = .ok 2 :=
  ⟨moderateHandler_ok, rfl, rfl⟩

/-- Witness for C2 (amended): the characterization applied to the banana
scenario state. -/
theorem moderate_purge_characterization_witness :
    moderateHandler dbBanana 1 1 ⟨"banana"⟩ 200 =
      .ok (dbBanana.nextNgWordId, { dbBanana with
        ng_words := dbBanana.ng_words ++ [newNgWord dbBanana 1 1 ⟨"banana"⟩ 200],
        nextNgWordId := dbBanana.nextNgWordId + 1,
        livecomments := dbBanana.livecomments.filter (fun lc =>
          !(lc.livestream_id == 1 &&
            ((dbBanana.ng_words ++ [newNgWord dbBanana 1 1 ⟨"banana"⟩ 200]).filter
                (fun x => x.livestream_id == 1)).any
              (fun w => ngWordLikeMatch lc.comment w.word))) }) :=
  moderate_purge_characterization.1 dbBanana 1 1 ⟨"banana"⟩ 200 (by decide)

/-! ### C3: non-owner registration is rejected without mutation -/

/-- C3: a caller who does not own the target stream is rejected with the fixed
not-your-stream failure — the spec's `Forbidden`, which the code realizes as
an HTTP 400 Bad Request with the quoted message — even when the stream
exists, and the transaction commits nothing: the committed state (hence the
`ng_words` and `livecomments` tables) is exactly the state before the call. -/
theorem moderate_nonowner_rejected (db : Db) (livestreamID userID : Int)
    (req : ModerateRequest) (now : Int)
    (h : db.livestreams.filter
        (fun ls => ls.id == livestreamID && ls.user_id == userID) = []) :
    moderateHandler db livestreamID userID req now =
      .error (.badRequest "A streamer can't moderate livestreams that other streamers own")
    ∧ commitDb db (moderateHandler db livestreamID userID req now) = db := by
  have hE : (db.livestreams.filter
      (fun ls => ls.id == livestreamID && ls.user_id == userID)).isEmpty = true := by
    rw [h]
    rfl
  have hm : moderateHandler db livestreamID userID req now =
      .error (.badRequest "A streamer can't moderate livestreams that other streamers own") := by
    simp only [moderateHandler, hE, if_true]
  refine ⟨hm, ?_⟩
  rw [hm]
  rfl

/-- Witness for C3: user 1 tries to moderate stream 1, owned by user 2. -/
theorem moderate_nonowner_rejected_witness :
    moderateHandler dbOtherOwner 1 1 ⟨"w"⟩ 5 =
      .error (.badRequest "A streamer can't moderate livestreams that other streamers own")
    ∧ commitDb dbOtherOwner (moderateHandler dbOtherOwner 1 1 ⟨"w"⟩ 5) = dbOtherOwner :=
  moderate_nonowner_rejected dbOtherOwner 1 1 ⟨"w"⟩ 5 (by decide)

/-! ### C5: registration never deletes another stream's comments -/

/-- C5: registering a banned phrase for one stream never deletes a comment of
any other stream: although the purge's candidate scan ranges over the whole
comment table, its DELETE is scoped to the target stream id, so the committed
state restricted to every other stream equals the state before the call (on
the rejection path nothing changes at all). -/
theorem moderate_preserves_other_streams (db : Db) (livestreamID userID : Int)
    (req : ModerateRequest) (now : Int) :
    (commitDb db (moderateHandler db livestreamID userID req now)).livecomments.filter
        (fun lc => !(lc.livestream_id == livestreamID)) =
      db.livecomments.filter (fun lc => !(lc.livestream_id == livestreamID)) := by
  cases hE : (db.livestreams.filter
      (fun ls => ls.id == livestreamID && ls.user_id == userID)).isEmpty with
  | true =>
    have hm : moderateHandler db livestreamID userID req now =
        .error (.badRequest "A streamer can't moderate livestreams that other streamers own") := by
      simp only [moderateHandler, hE, if_true]
    rw [hm]
    rfl
  | false =>
    rw [moderateHandler_ok db livestreamID userID req now hE]
    simp only [commitDb]
    rw [List.filter_filter]
    apply List.filter_congr
    intro lc _
    cases h1 : (lc.livestream_id == livestreamID) <;> simp [h1]


/-! ### C4: which NG-word rows the submission-time check consults -/

theorem except_map_eq_error_iff {α β : Type} (f : α → β) (x : Except HErr α) (e : HErr) :
    x.map f = .error e ↔ x = .error e := by
  cases x <;> simp [Except.map]

theorem fillLivecommentFromDb_ne_badRequest (db : Db) (livecommentID : Int) (msg : String) :
    fillLivecommentFromDb db livecommentID ≠ .error (.badRequest msg) := by
  cases hg : getLivecommentData db livecommentID with
  | error e => cases e <;> simp [fillLivecommentFromDb, hg]
  | ok resp => simp [fillLivecommentFromDb, hg]

theorem postLivecommentHandler_rejects_iff (db : Db) (livestreamID userID : Int)
    (req : PostLivecommentRequest) (now : Int) (lsm : LivestreamModel)
    (hs : db.livestreams.find? (fun ls => ls.id == livestreamID) = some lsm) :
    postLivecommentHandler db livestreamID userID req now =
        .error (.badRequest "このコメントがスパム判定されました")
      ↔ (submissionNgWords db lsm).any (fun w => ngWordLikeMatch req.comment w.word) = true := by
  cases hAny : (submissionNgWords db lsm).any (fun w => ngWordLikeMatch req.comment w.word) with
  | true =>
    simp [postLivecommentHandler, hs, hAny]
  | false =>
    simp only [postLivecommentHandler, hs, hAny, Bool.false_eq_true, if_false,
      except_map_eq_error_iff]
    simp only [Bool.false_eq_true, iff_false]
    exact fillLivecommentFromDb_ne_badRequest _ _ _

theorem fillLivecommentFromDb_append_isOk (db db2 : Db) (lc : LivecommentModel)
    (u : UserModel) (t : ThemeModel) (lsm : LivestreamModel)
    (hfresh : db.livecomments.find? (fun x => x.id == lc.id) = none)
    (hu : db.users.find? (fun x => x.id == lc.user_id) = some u)
    (ht : db.themes.find? (fun x => x.user_id == u.id) = some t)
    (hls : db.livestreams.find? (fun x => x.id == lc.livestream_id) = some lsm)
    (h1 : db2.users = db.users) (h2 : db2.themes = db.themes)
    (h4 : db2.livestreams = db.livestreams)
    (h5 : db2.livecomments = db.livecomments ++ [lc]) :
    (fillLivecommentFromDb db2 lc.id).isOk = true := by
  have hfind : db2.livecomments.find? (fun x => x.id == lc.id) = some lc := by
    rw [h5, List.find?_append, hfresh, Option.none_or]
    simp [List.find?]
  simp [fillLivecommentFromDb, getLivecommentData, hfind, h1, h2, h4, hu, ht, hls,
    Except.isOk, Except.toBool]

theorem postLivecommentHandler_accepts (db : Db) (livestreamID userID : Int)
    (req : PostLivecommentRequest) (now : Int) (lsm : LivestreamModel)
    (u : UserModel) (t : ThemeModel)
    (hs : db.livestreams.find? (fun ls => ls.id == livestreamID) = some lsm)
    (hAny : (submissionNgWords db lsm).any (fun w => ngWordLikeMatch req.comment w.word) = false)
    (hfresh : db.livecomments.find? (fun x => x.id == db.nextLivecommentId) = none)
    (hu : db.users.find? (fun x => x.id == userID) = some u)
    (ht : db.themes.find? (fun x => x.user_id == u.id) = some t) :
    ∃ out db2, postLivecommentHandler db livestreamID userID req now = .ok (out, db2)
      ∧ db2.livecomments = db.livecomments ++
          [{ id := db.nextLivecommentId, user_id := userID, livestream_id := livestreamID,
             comment := req.comment, tip := req.tip, created_at := now }] := by
  have hok : (fillLivecommentFromDb
      { db with
        livecomments := db.livecomments ++
          [{ id := db.nextLivecommentId, user_id := userID, livestream_id := livestreamID,
             comment := req.comment, tip := req.tip, created_at := now }],
        nextLivecommentId := db.nextLivecommentId + 1 }
      db.nextLivecommentId).isOk = true :=
    fillLivecommentFromDb_append_isOk db
      { db with
        livecomments := db.livecomments ++
          [{ id := db.nextLivecommentId, user_id := userID, livestream_id := livestreamID,
             comment := req.comment, tip := req.tip, created_at := now }],
        nextLivecommentId := db.nextLivecommentId + 1 }
      { id := db.nextLivecommentId, user_id := userID, livestream_id := livestreamID,
        comment := req.comment, tip := req.tip, created_at := now }
      u t lsm hfresh hu ht hs rfl rfl rfl rfl
  cases hfill : fillLivecommentFromDb
      { db with
        livecomments := db.livecomments ++
          [{ id := db.nextLivecommentId, user_id := userID, livestream_id := livestreamID,
             comment := req.comment, tip := req.tip, created_at := now }],
        nextLivecommentId := db.nextLivecommentId + 1 }
      db.nextLivecommentId with
  | error e =>
    rw [hfill] at hok
    exact absurd hok (by simp [Except.isOk, Except.toBool])
  | ok out =>
    refine ⟨out,
      { db with
        livecomments := db.livecomments ++
          [{ id := db.nextLivecommentId, user_id := userID, livestream_id := livestreamID,
             comment := req.comment, tip := req.tip, created_at := now }],
        nextLivecommentId := db.nextLivecommentId + 1 }, ?_, rfl⟩
    simp only [postLivecommentHandler, hs, hAny, Bool.false_eq_true, if_false]
    rw [hfill]
    rfl


/-- C4: counterexample.  The submission-time spam check loads only the
NG-word rows whose `user_id` equals the stream's *current owner*
(`WHERE user_id = ? AND livestream_id = ?`), not the union of all rows for
the stream: in `dbForeignNgWord` the stream's banned set contains the row
`(user_id = 2, livestream_id = 1, word = "x")`, whose word matches the body
`"xyz"`, yet the submission is accepted and the comment stored — the claim
that any matching row of the stream causes a `Rejected` is false. -/
theorem submission_bannedset_counterexample :
    (∃ w ∈ dbForeignNgWord.ng_words, w.livestream_id = 1
        ∧ ngWordLikeMatch "xyz" w.word = true)
    ∧ (postLivecommentHandler dbForeignNgWord 1 3 ⟨"xyz", 0⟩ 100).map
        (fun r => r.2.livecomments.map LivecommentModel.comment) = .ok ["xyz"] :=
  ⟨by decide, rfl⟩

/-- C4 (amended): the banned set the submission check applies is the set of
NG-word rows whose stream id is the target stream *and* whose user id is the
stream's current owner (`submissionNgWords`).  A submission is answered with
the spam rejection (a 400 client error) exactly when some phrase of that set
LIKE-matches the body; when none matches (and the response joins resolve),
the comment is accepted and appended to the stream. -/
theorem submission_spam_check_characterization :
    (∀ (db : Db) (livestreamID userID : Int) (req : PostLivecommentRequest) (now : Int)
        (lsm : LivestreamModel),
      db.livestreams.find? (fun ls => ls.id == livestreamID) = some lsm →
      (postLivecommentHandler db livestreamID userID req now =
          .error (.badRequest "このコメントがスパム判定されました")
        ↔ (submissionNgWords db lsm).any (fun w => ngWordLikeMatch req.comment w.word) = true))
    ∧ (∀ (db : Db) (livestreamID userID : Int) (req : PostLivecommentRequest) (now : Int)
        (lsm : LivestreamModel) (u : UserModel) (t : ThemeModel),
      db.livestreams.find? (fun ls => ls.id == livestreamID) = some lsm →
      (submissionNgWords db lsm).any (fun w => ngWordLikeMatch req.comment w.word) = false →
      db.livecomments.find? (fun x => x.id == db.nextLivecommentId) = none →
      db.users.find? (fun x => x.id == userID) = some u →
      db.themes.find? (fun x => x.user_id == u.id) = some t →
      ∃ out db2, postLivecommentHandler db livestreamID userID req now = .ok (out, db2)
        ∧ db2.livecomments = db.livecomments ++
            [{ id := db.nextLivecommentId, user_id := userID, livestream_id := livestreamID,
               comment := req.comment, tip := req.tip, created_at := now }]) :=
  ⟨fun db livestreamID userID req now lsm hs =>
      postLivecommentHandler_rejects_iff db livestreamID userID req now lsm hs,
   fun db livestreamID userID req now lsm u t hs hAny hfresh hu ht =>
      postLivecommentHandler_accepts db livestreamID userID req now lsm u t hs hAny hfresh hu ht⟩

/-- Witness for C4 (amended): a matching owner-registered phrase rejects the
submission; with no matching phrase the comment is accepted and appended. -/
theorem submission_spam_check_characterization_witness :
    postLivecommentHandler dbOwnerNgWord 1 3 ⟨"wxyz", 0⟩ 100 =
      .error (.badRequest "このコメントがスパム判定されました")
    ∧ ∃ out db2, postLivecommentHandler dbForeignNgWord 1 3 ⟨"hi", 0⟩ 100 = .ok (out, db2)
        ∧ db2.livecomments = dbForeignNgWord.livecomments ++
            [{ id := dbForeignNgWord.nextLivecommentId, user_id := 3, livestream_id := 1,
               comment := "hi", tip := 0, created_at := 100 }] :=
  ⟨(submission_spam_check_characterization.1 dbOwnerNgWord 1 3 ⟨"wxyz", 0⟩ 100
      (sampleStream 1 1) rfl).mpr (by decide),
   submission_spam_check_characterization.2 dbForeignNgWord 1 3 ⟨"hi", 0⟩ 100
      (sampleStream 1 1) (sampleUser 3 "p") (sampleTheme 1 3) rfl (by decide) rfl rfl rfl⟩

/-! ### C6: listing order — descending timestamps, unspecified tie order -/

/-- C6: counterexample.  The listing query orders by `created_at DESC` with no
secondary key, so the relative order of equal timestamps follows the storage
scan.  With the table scanned in its stored order, the two comments of
`dbTies` — both with `created_at = 100` — come back with ids `[1, 2]`
(ascending), not the claimed id-descending tie-break `[2, 1]`; the output is
therefore also not strictly descending. -/
theorem listing_tie_order_counterexample :
    (getLivecommentsHandler dbTies dbTies.livecomments 1 none).map
        (fun l => l.map Livecomment.id) = .ok [1, 2]
    ∧ (getLivecommentsHandler dbTies dbTies.livecomments 1 none).map
        (fun l => l.map Livecomment.created_at) = .ok [100, 100] :=
  ⟨rfl, rfl⟩

/-- C6 (amended): for every storage scan order of the comment table, listing
without a limit returns exactly the stream's comments (a permutation of the
stream's rows) sorted by `created_at` descending; but the order of comments
with equal `created_at` is not specified — both tie orders of `dbTies` arise
from admissible scans (each a permutation of the stored table), so no
id-descending tie-break is guaranteed. -/
theorem listing_order_amended :
    (∀ (db : Db) (scan : List LivecommentModel) (livestreamID : Int),
        scan.Perm db.livecomments →
        (livecommentsQueryRows scan livestreamID).Perm
            (db.livecomments.filter (fun lc => lc.livestream_id == livestreamID))
          ∧ List.Sorted byRecency (livecommentsQueryRows scan livestreamID))
    ∧ livecommentsQueryRows [tieCommentA, tieCommentB] 1 = [tieCommentA, tieCommentB]
    ∧ livecommentsQueryRows [tieCommentB, tieCommentA] 1 = [tieCommentB, tieCommentA]
    ∧ [tieCommentB, tieCommentA].Perm dbTies.livecomments := by
  refine ⟨fun db scan livestreamID h => ⟨?_, ?_⟩, rfl, rfl, ?_⟩
  · exact (List.perm_insertionSort byRecency _).trans (h.filter _)
  · exact List.sorted_insertionSort byRecency _
  · decide

/-- Witness for C6 (amended), at the stored scan order of `dbTies`. -/
theorem listing_order_amended_witness :
    (livecommentsQueryRows dbTies.livecomments 1).Perm
        (dbTies.livecomments.filter (fun lc => lc.livestream_id == 1))
    ∧ List.Sorted byRecency (livecommentsQueryRows dbTies.livecomments 1) :=
  listing_order_amended.1 dbTies dbTies.livecomments 1 (List.Perm.refl _)

/-! ### C7: the limit parameter and empty results -/

/-- C7: counterexample.  A negative limit passes `strconv.Atoi` and is spliced
into the SQL text, where `LIMIT -1` is a syntax error: the handler returns the
500 query failure (the spec's `Internal`), not the 400 `InvalidArgument`
reserved for a non-integer limit — so "fails with InvalidArgument for every
negative limit" is false. -/
theorem listing_negative_limit_counterexample :
    getLivecommentsHandler dbTies dbTies.livecomments 1 (some "-1") =
      .error (.internalServerError "failed to get livecomments")
    ∧ HErr.internalServerError "failed to get livecomments" ≠
        HErr.badRequest "limit query parameter must be integer" :=
  ⟨rfl, by decide⟩

/-- C7 (amended): a limit that does not parse as an integer fails with the 400
`InvalidArgument`; a *negative* integer limit makes the query itself fail and
returns the 500 `Internal` instead; `limit = 0` yields the empty sequence; and
a stream with no comments yields the empty sequence, not an error. -/
theorem listing_limit_amended :
    (∀ (db : Db) (scan : List LivecommentModel) (livestreamID : Int) (s : String),
        goAtoi s = none →
        getLivecommentsHandler db scan livestreamID (some s) =
          .error (.badRequest "limit query parameter must be integer"))
    ∧ (∀ (db : Db) (scan : List LivecommentModel) (livestreamID : Int) (s : String) (n : Int),
        goAtoi s = some n → n < 0 →
        getLivecommentsHandler db scan livestreamID (some s) =
          .error (.internalServerError "failed to get livecomments"))
    ∧ (∀ (db : Db) (scan : List LivecommentModel) (livestreamID : Int) (s : String),
        goAtoi s = some 0 →
        getLivecommentsHandler db scan livestreamID (some s) = .ok [])
    ∧ (∀ (db : Db) (scan : List LivecommentModel) (livestreamID : Int),
        scan.Perm db.livecomments →
        db.livecomments.filter (fun lc => lc.livestream_id == livestreamID) = [] →
        getLivecommentsHandler db scan livestreamID none = .ok []) := by
  refine ⟨?_, ?_, ?_, ?_⟩
  · intro db scan livestreamID s hs
    simp [getLivecommentsHandler, hs]
  · intro db scan livestreamID s n hs hn
    simp [getLivecommentsHandler, hs, hn]
  · intro db scan livestreamID s hs
    simp [getLivecommentsHandler, hs, listLivecommentsWith]
    rfl
  · intro db scan livestreamID hperm hfilter
    have h0 : scan.filter (fun lc => lc.livestream_id == livestreamID) = [] := by
      have hp := hperm.filter (fun lc => lc.livestream_id == livestreamID)
      rw [hfilter] at hp
      exact hp.eq_nil
    simp only [getLivecommentsHandler, livecommentsQueryRows, h0, listLivecommentsWith]
    rfl

/-- Witness for C7 (amended) at concrete limits and an empty stream. -/
theorem listing_limit_amended_witness :
    getLivecommentsHandler dbTies [] 1 (some "abc") =
      .error (.badRequest "limit query parameter must be integer")
    ∧ getLivecommentsHandler dbTies [] 1 (some "-2") =
      .error (.internalServerError "failed to get livecomments")
    ∧ getLivecommentsHandler dbTies [] 1 (some "0") = .ok []
    ∧ getLivecommentsHandler dbTies dbTies.livecomments 99 none = .ok [] :=
  ⟨listing_limit_amended.1 dbTies [] 1 "abc" (by decide),
   listing_limit_amended.2.1 dbTies [] 1 "-2" (-2) (by decide) (by decide),
   listing_limit_amended.2.2.1 dbTies [] 1 "0" (by decide),
   listing_limit_amended.2.2.2 dbTies dbTies.livecomments 99 (List.Perm.refl _) (by decide)⟩


/-! ### C8: reporting a non-existent comment -/

/-- C8: filing a report against a comment id that exists nowhere in the
comment table fails with a `NotFound` (404) — either "livestream not found" or
"livecomment not found", both checked before the insert — and the committed
state is exactly the state before the call, so the report table is unchanged
and no partial insert survives the rollback. -/
theorem report_missing_comment_notfound (db : Db)
    (livestreamID livecommentID userID now : Int)
    (h : ∀ lc ∈ db.livecomments, lc.id ≠ livecommentID) :
    (∃ msg, reportLivecommentHandler db livestreamID livecommentID userID now =
        .error (.notFound msg))
    ∧ commitDb db (reportLivecommentHandler db livestreamID livecommentID userID now) = db := by
  have hfind : db.livecomments.find? (fun lc => lc.id == livecommentID) = none := by
    rw [List.find?_eq_none]
    intro lc hlc
    simpa using h lc hlc
  cases hs : db.livestreams.find? (fun ls => ls.id == livestreamID) with
  | none =>
    have hm : reportLivecommentHandler db livestreamID livecommentID userID now =
        .error (.notFound "livestream not found") := by
      simp [reportLivecommentHandler, hs]
    refine ⟨⟨_, hm⟩, ?_⟩
    rw [hm]
    rfl
  | some lsm =>
    have hm : reportLivecommentHandler db livestreamID livecommentID userID now =
        .error (.notFound "livecomment not found") := by
      simp [reportLivecommentHandler, hs, hfind]
    refine ⟨⟨_, hm⟩, ?_⟩
    rw [hm]
    rfl

/-- Witness for C8: a report against the absent comment id 42. -/
theorem report_missing_comment_notfound_witness :
    (∃ msg, reportLivecommentHandler dbCrossReport 1 42 7 99 = .error (.notFound msg))
    ∧ commitDb dbCrossReport (reportLivecommentHandler dbCrossReport 1 42 7 99) =
        dbCrossReport :=
  report_missing_comment_notfound dbCrossReport 1 42 7 99 (by decide)

/-! ### C9: IconHash resolution on the user-lookup path -/

set_option maxRecDepth 40000 in
/-- C9 (code bug): in `dbEmptyIcon` user 1's `icons` row exists but stores
zero bytes.  `fillUserResponse` substitutes the fallback image only when the
row is *absent* (`sql.ErrNoRows`), so here it hashes the empty byte string,
while `fillLivecommentResponse` — like the joined user-details and report
paths — replaces absent-*or-empty* bytes with the fallback image before
hashing.  The same unchanged user therefore resolves to two different
IconHash values on the two resolution paths, contradicting the specified
uniform absent-or-empty substitution and cross-path determinism. -/
theorem fillUserResponse_empty_icon_divergence :
    (fillUserResponse dbEmptyIcon (sampleUser 1 "alice")).map User.icon_hash =
      .ok (sha256Hex [])
    ∧ (fillLivecommentFromDb dbEmptyIcon 1).map (fun l => l.user.icon_hash) =
      .ok (sha256Hex fallbackImageBytes)
    ∧ sha256Hex [] ≠ sha256Hex fallbackImageBytes :=
  ⟨rfl, rfl, by decide⟩

/-! ### C10: a report may pair a comment with a foreign stream -/

/-- C10: when the named stream and comment both exist (and the response joins
resolve), filing the report succeeds and stores the *request's* stream id in
the report row — there is no check that the comment belongs to that stream,
and no hypothesis below relates `lc.livestream_id` to `livestreamID`. -/
theorem report_stores_request_stream (db : Db)
    (livestreamID livecommentID userID now : Int)
    (lsm : LivestreamModel) (lc : LivecommentModel) (ru lu : UserModel)
    (rt lt : ThemeModel) (lsc : LivestreamModel)
    (hs : db.livestreams.find? (fun ls => ls.id == livestreamID) = some lsm)
    (hc : db.livecomments.find? (fun x => x.id == livecommentID) = some lc)
    (hfresh : db.livecomment_reports.find? (fun r => r.id == db.nextReportId) = none)
    (hru : db.users.find? (fun x => x.id == userID) = some ru)
    (hrt : db.themes.find? (fun x => x.user_id == ru.id) = some rt)
    (hlu : db.users.find? (fun x => x.id == lc.user_id) = some lu)
    (hlt : db.themes.find? (fun x => x.user_id == lu.id) = some lt)
    (hlsc : db.livestreams.find? (fun ls => ls.id == lc.livestream_id) = some lsc) :
    ∃ out, reportLivecommentHandler db livestreamID livecommentID userID now =
      .ok (out, { db with
        livecomment_reports := db.livecomment_reports ++
          [newReport db livestreamID livecommentID userID now],
        nextReportId := db.nextReportId + 1 }) := by
  have hfindRep : (db.livecomment_reports ++
        [({ id := db.nextReportId, user_id := userID, livestream_id := livestreamID,
            livecomment_id := livecommentID, created_at := now } : LivecommentReportModel)]).find?
          (fun r => r.id == db.nextReportId) =
      some { id := db.nextReportId, user_id := userID, livestream_id := livestreamID,
             livecomment_id := livecommentID, created_at := now } := by
    rw [List.find?_append, hfresh, Option.none_or]
    simp [List.find?]
  have hdata : ∃ resp, getLivecommentReportData
      { db with
        livecomment_reports := db.livecomment_reports ++
          [{ id := db.nextReportId, user_id := userID, livestream_id := livestreamID,
             livecomment_id := livecommentID, created_at := now }],
        nextReportId := db.nextReportId + 1 } db.nextReportId = .ok resp := by
    simp only [getLivecommentReportData, hfindRep, hru, hrt, hc, hlu, hlt, hlsc]
    exact ⟨_, rfl⟩
  obtain ⟨resp, hresp⟩ := hdata
  refine ⟨fillLivecommentReportResponse resp, ?_⟩
  simp only [reportLivecommentHandler, hs, hc, newReport]
  rw [hresp]


/-- Witness for C10: comment 5 belongs to stream 2, yet reporting it against
stream 1 succeeds and the stored report row carries stream id 1. -/
theorem report_stores_request_stream_witness :
    ∃ out, reportLivecommentHandler dbCrossReport 1 5 7 99 =
      .ok (out, { dbCrossReport with
        livecomment_reports := dbCrossReport.livecomment_reports ++
          [newReport dbCrossReport 1 5 7 99],
        nextReportId := dbCrossReport.nextReportId + 1 }) :=
  report_stores_request_stream dbCrossReport 1 5 7 99 (sampleStream 1 9)
    { id := 5, user_id := 2, livestream_id := 2, comment := "c", tip := 0, created_at := 10 }
    (sampleUser 7 "rep") (sampleUser 2 "auth") (sampleTheme 1 7) (sampleTheme 2 2)
    (sampleStream 2 2) rfl rfl rfl rfl rfl rfl rfl rfl

end Isupipe
